import Mathlib

/-
Verification of the route-result data model of src/DataStructures/RawRouteData.h:
the structures PathData (spec name: PathSegment) and RawRouteData (spec name:
RouteResult), their constructors, and the producer contract on populated
instances. C++ std::vector is modelled as List; the 32-bit C++ types unsigned
and int are modelled as Nat and Int together with their maximum values.
-/

set_option autoImplicit false

/-- Maximum value of the 32-bit C++ type unsigned, std::numeric_limits of
unsigned, max(): 2 ^ 32 - 1. -/
def unsignedMax : Nat := 2 ^ 32 - 1

/-- Maximum value of the 32-bit C++ type int, std::numeric_limits of int,
max(): 2 ^ 31 - 1. -/
def intMax : Int := 2 ^ 31 - 1

/-- Modelled from the spec: NodeID is declared in typedefs.h, which is not under
src/. The spec describes the node field as an identifier in the unsigned
integer domain whose sentinel is the max value, so NodeID shares the domain of
unsigned and its maximum value. -/
def nodeIdMax : Nat := unsignedMax

/-- Modelled from the spec: TurnInstruction is declared in
DataStructures/TurnInstructions.h, which is not under src/. The spec describes
turn_instruction as an enumerated maneuver code whose sentinel is the max value
of the underlying representation; it is modelled as an unsigned integer
representation of bit width w, with maximum value 2 ^ w - 1. -/
def turnInstructionMax (w : Nat) : Nat := 2 ^ w - 1

/-- Modelled from the spec: the C++ integral conversion of an unsigned value
into the TurnInstruction representation of bit width w keeps the value modulo
2 ^ w. -/
def toTurnInstruction (w : Nat) (v : Nat) : Nat := v % 2 ^ w

/-- Modelled from the spec: the bit width of the underlying representation of
TurnInstruction, left unspecified by the header under src/. The spec property
that on a default-constructed PathSegment node == name_id == segment_duration
== turn_instruction all equal their max sentinels forces this width to equal
the width of unsigned, 32. -/
def turnInstructionWidth : Nat := 32

/-- Struct PathData of src/DataStructures/RawRouteData.h (spec name:
PathSegment), parameterized by the TurnInstruction bit width w. Field order
follows the declaration order in the header: node, name_id, segment_duration,
turn_instruction. -/
structure PathData (w : Nat) where
  node : Nat
  name_id : Nat
  segment_duration : Nat
  turn_instruction : Nat
deriving DecidableEq

/-- Default constructor PathData::PathData(): node, name_id and
segment_duration are set to the max of unsigned and turn_instruction to the max
of TurnInstruction. -/
def PathData.default (w : Nat) : PathData w :=
  ⟨unsignedMax, unsignedMax, unsignedMax, turnInstructionMax w⟩

/-- Populating constructor PathData::PathData(NodeID no, unsigned na, unsigned
tu, unsigned dur): the member initializer list stores node = no, name_id = na,
segment_duration = dur, and turn_instruction = tu converted into the
TurnInstruction representation. -/
def PathData.construct (w : Nat) (no na tu dur : Nat) : PathData w :=
  ⟨no, na, dur, toTurnInstruction w tu⟩

/-- Modelled from the spec: FixedPointCoordinate is declared in
osrm/Coordinate.h, which is not under src/. The spec describes it as a raw
geographic coordinate; modelled as a fixed-point latitude and longitude pair. -/
structure FixedPointCoordinate where
  lat : Int
  lon : Int
deriving DecidableEq

/-- Modelled from the spec: one snapped phantom location, the nearest point on
an edge to a requested coordinate, with the two end nodes of that edge and the
fractional offset along it. PhantomNodes.h is not under src/. -/
structure PhantomNode where
  location : FixedPointCoordinate
  edge_based_node : Nat
  reverse_node : Nat
  offset : Int
deriving DecidableEq

/-- Modelled from the spec: PhantomNodes, declared in
DataStructures/PhantomNodes.h (not under src/), holds the snapped source and
target locations of one leg. -/
structure PhantomNodes where
  source_phantom : PhantomNode
  target_phantom : PhantomNode
deriving DecidableEq

/-- Struct RawRouteData of src/DataStructures/RawRouteData.h (spec name:
RouteResult). Spec field names: primary_path = unpacked_path_segments,
alternative_path = unpacked_alternative, leg_endpoints =
segment_end_coordinates, via_coordinates = raw_via_node_coordinates, checksum =
check_sum, primary_path_length = shortest_path_length, source_reversed =
source_traversed_in_reverse, and so on. -/
structure RawRouteData (w : Nat) where
  unpacked_path_segments : List (List (PathData w))
  unpacked_alternative : List (PathData w)
  segment_end_coordinates : List PhantomNodes
  raw_via_node_coordinates : List FixedPointCoordinate
  check_sum : Nat
  shortest_path_length : Int
  alternative_path_length : Int
  source_traversed_in_reverse : Bool
  target_traversed_in_reverse : Bool
  alt_source_traversed_in_reverse : Bool
  alt_target_traversed_in_reverse : Bool
deriving DecidableEq

/-- Default constructor RawRouteData::RawRouteData(): check_sum at the max of
unsigned, both path lengths at the max of int, all four reversal flags false;
the vector members are default-constructed, hence empty. -/
def RawRouteData.default (w : Nat) : RawRouteData w :=
  ⟨[], [], [], [], unsignedMax, intMax, intMax, false, false, false, false⟩

/-- Total number of PathData segments across all legs of a primary path. -/
def segmentCount {w : Nat} (legs : List (List (PathData w))) : Nat :=
  (legs.map List.length).sum

/-- Field assignment unpacked_path_segments = v on a RawRouteData lvalue. -/
def RawRouteData.set_unpacked_path_segments {w : Nat} (r : RawRouteData w)
    (v : List (List (PathData w))) : RawRouteData w :=
  { r with unpacked_path_segments := v }

/-- Field assignment unpacked_alternative = v. -/
def RawRouteData.set_unpacked_alternative {w : Nat} (r : RawRouteData w)
    (v : List (PathData w)) : RawRouteData w :=
  { r with unpacked_alternative := v }

/-- Field assignment segment_end_coordinates = v. -/
def RawRouteData.set_segment_end_coordinates {w : Nat} (r : RawRouteData w)
    (v : List PhantomNodes) : RawRouteData w :=
  { r with segment_end_coordinates := v }

/-- Field assignment raw_via_node_coordinates = v. -/
def RawRouteData.set_raw_via_node_coordinates {w : Nat} (r : RawRouteData w)
    (v : List FixedPointCoordinate) : RawRouteData w :=
  { r with raw_via_node_coordinates := v }

/-- Field assignment check_sum = v. -/
def RawRouteData.set_check_sum {w : Nat} (r : RawRouteData w) (v : Nat) :
    RawRouteData w :=
  { r with check_sum := v }

/-- Field assignment shortest_path_length = v. -/
def RawRouteData.set_shortest_path_length {w : Nat} (r : RawRouteData w)
    (v : Int) : RawRouteData w :=
  { r with shortest_path_length := v }

/-- Field assignment alternative_path_length = v. -/
def RawRouteData.set_alternative_path_length {w : Nat} (r : RawRouteData w)
    (v : Int) : RawRouteData w :=
  { r with alternative_path_length := v }

/-- Field assignment source_traversed_in_reverse = v. -/
def RawRouteData.set_source_traversed_in_reverse {w : Nat} (r : RawRouteData w)
    (v : Bool) : RawRouteData w :=
  { r with source_traversed_in_reverse := v }

/-- Field assignment target_traversed_in_reverse = v. -/
def RawRouteData.set_target_traversed_in_reverse {w : Nat} (r : RawRouteData w)
    (v : Bool) : RawRouteData w :=
  { r with target_traversed_in_reverse := v }

/-- Field assignment alt_source_traversed_in_reverse = v. -/
def RawRouteData.set_alt_source_traversed_in_reverse {w : Nat}
    (r : RawRouteData w) (v : Bool) : RawRouteData w :=
  { r with alt_source_traversed_in_reverse := v }

/-- Field assignment alt_target_traversed_in_reverse = v. -/
def RawRouteData.set_alt_target_traversed_in_reverse {w : Nat}
    (r : RawRouteData w) (v : Bool) : RawRouteData w :=
  { r with alt_target_traversed_in_reverse := v }

/-- The fields of a RawRouteData that belong to the primary route, as one
tuple: primary path, primary length, leg endpoints, via coordinates, and the
two primary reversal flags. -/
def primaryView {w : Nat} (r : RawRouteData w) :
    List (List (PathData w)) × Int × List PhantomNodes ×
      List FixedPointCoordinate × Bool × Bool :=
  (r.unpacked_path_segments, r.shortest_path_length, r.segment_end_coordinates,
    r.raw_via_node_coordinates, r.source_traversed_in_reverse,
    r.target_traversed_in_reverse)

/-- The fields of a RawRouteData that belong to the alternative route, as one
tuple: alternative path, alternative length, and the two alternative reversal
flags. -/
def altView {w : Nat} (r : RawRouteData w) :
    List (PathData w) × Int × Bool × Bool :=
  (r.unpacked_alternative, r.alternative_path_length,
    r.alt_source_traversed_in_reverse, r.alt_target_traversed_in_reverse)

/-- PathSegment states observable through the two constructors of PathData:
either the default constructor or the populating constructor applied to
arguments in the unsigned argument domain. -/
inductive PathDataConstructed (w : Nat) : PathData w → Prop where
  | default_state : PathDataConstructed w (PathData.default w)
  | populated (no na tu dur : Nat) (hno : no ≤ nodeIdMax)
      (hna : na ≤ unsignedMax) (htu : tu ≤ unsignedMax)
      (hdur : dur ≤ unsignedMax) :
      PathDataConstructed w (PathData.construct w no na tu dur)

/-- All four fields of a PathData hold the max sentinel of their type. -/
def PathData.allSentinel {w : Nat} (p : PathData w) : Prop :=
  p.node = unsignedMax ∧ p.name_id = unsignedMax ∧
    p.segment_duration = unsignedMax ∧
    p.turn_instruction = turnInstructionMax w

/-- Modelled from the spec: the RawRouteData states reachable through the
operations of the type by a producer that respects the documented contract
(the producing search code is not under src/). Starting from the default
constructor, the producer either stores a found route (a length other than the
sentinel together with at least one segment) or records the absence of a route
(sentinel length together with no segments), for the primary and the
alternative independently, and may freely assign the frame fields check_sum,
segment_end_coordinates, raw_via_node_coordinates and the reversal flags. -/
inductive ContractReachable (w : Nat) : RawRouteData w → Prop where
  | init : ContractReachable w (RawRouteData.default w)
  | primary_found (r : RawRouteData w) (legs : List (List (PathData w)))
      (len : Int) (hr : ContractReachable w r) (hlen : len ≠ intMax)
      (hsegs : segmentCount legs ≠ 0) :
      ContractReachable w
        ((r.set_unpacked_path_segments legs).set_shortest_path_length len)
  | primary_none (r : RawRouteData w) (legs : List (List (PathData w)))
      (hr : ContractReachable w r) (hsegs : segmentCount legs = 0) :
      ContractReachable w
        ((r.set_unpacked_path_segments legs).set_shortest_path_length intMax)
  | alternative_found (r : RawRouteData w) (alt : List (PathData w))
      (len : Int) (hr : ContractReachable w r) (hlen : len ≠ intMax)
      (halt : alt ≠ []) :
      ContractReachable w
        ((r.set_unpacked_alternative alt).set_alternative_path_length len)
  | alternative_none (r : RawRouteData w) (hr : ContractReachable w r) :
      ContractReachable w
        ((r.set_unpacked_alternative []).set_alternative_path_length intMax)
  | assign_check_sum (r : RawRouteData w) (v : Nat)
      (hr : ContractReachable w r) :
      ContractReachable w (r.set_check_sum v)
  | assign_endpoints (r : RawRouteData w) (v : List PhantomNodes)
      (hr : ContractReachable w r) :
      ContractReachable w (r.set_segment_end_coordinates v)
  | assign_vias (r : RawRouteData w) (v : List FixedPointCoordinate)
      (hr : ContractReachable w r) :
      ContractReachable w (r.set_raw_via_node_coordinates v)
  | assign_source_flag (r : RawRouteData w) (v : Bool)
      (hr : ContractReachable w r) :
      ContractReachable w (r.set_source_traversed_in_reverse v)
  | assign_target_flag (r : RawRouteData w) (v : Bool)
      (hr : ContractReachable w r) :
      ContractReachable w (r.set_target_traversed_in_reverse v)
  | assign_alt_source_flag (r : RawRouteData w) (v : Bool)
      (hr : ContractReachable w r) :
      ContractReachable w (r.set_alt_source_traversed_in_reverse v)
  | assign_alt_target_flag (r : RawRouteData w) (v : Bool)
      (hr : ContractReachable w r) :
      ContractReachable w (r.set_alt_target_traversed_in_reverse v)

/-- One full producer population pass: construct a RawRouteData with the
default constructor, then assign every one of the eleven fields in turn. -/
def RawRouteData.populate (w : Nat) (segs : List (List (PathData w)))
    (alt : List (PathData w)) (ends : List PhantomNodes)
    (vias : List FixedPointCoordinate) (cs : Nat) (plen alen : Int)
    (b1 b2 b3 b4 : Bool) : RawRouteData w :=
  ((((((((((((RawRouteData.default w).set_unpacked_path_segments
    segs).set_unpacked_alternative alt).set_segment_end_coordinates
    ends).set_raw_via_node_coordinates vias).set_check_sum
    cs).set_shortest_path_length plen).set_alternative_path_length
    alen).set_source_traversed_in_reverse
    b1).set_target_traversed_in_reverse
    b2).set_alt_source_traversed_in_reverse
    b3).set_alt_target_traversed_in_reverse b4)

/-- C1: the four-argument PathData constructor, taking (node, name_id,
turn_instruction, segment_duration), stores each argument into exactly the
field of the same role, with no coercion for arguments in the unsigned domain
and no reordering of arguments into wrong fields. -/
theorem c1_populating_constructor_fields (no na tu dur : Nat)
    (htu : tu ≤ unsignedMax) :
    (PathData.construct turnInstructionWidth no na tu dur).node = no ∧
    (PathData.construct turnInstructionWidth no na tu dur).name_id = na ∧
    (PathData.construct turnInstructionWidth no na tu dur).turn_instruction
      = tu ∧
    (PathData.construct turnInstructionWidth no na tu dur).segment_duration
      = dur := by
  refine ⟨rfl, rfl, ?_, rfl⟩
  show toTurnInstruction turnInstructionWidth tu = tu
  have h : tu < 2 ^ 32 := by
    have := htu
    unfold unsignedMax at this
    omega
  simpa [toTurnInstruction, turnInstructionWidth] using Nat.mod_eq_of_lt h

/-- Witness for C1 at the concrete input (7, 8, 9, 10). -/
theorem c1_witness :
    (PathData.construct turnInstructionWidth 7 8 9 10).node = 7 ∧
    (PathData.construct turnInstructionWidth 7 8 9 10).name_id = 8 ∧
    (PathData.construct turnInstructionWidth 7 8 9 10).turn_instruction = 9 ∧
    (PathData.construct turnInstructionWidth 7 8 9 10).segment_duration
      = 10 :=
  c1_populating_constructor_fields 7 8 9 10 (by decide)

/-- C2: on a default-constructed PathData every field holds the max sentinel of
its own type, and the chained equality node == name_id == segment_duration ==
turn_instruction holds. -/
theorem c2_default_path_segment_all_sentinel :
    (PathData.default turnInstructionWidth).node = unsignedMax ∧
    (PathData.default turnInstructionWidth).name_id = unsignedMax ∧
    (PathData.default turnInstructionWidth).segment_duration = unsignedMax ∧
    (PathData.default turnInstructionWidth).turn_instruction
      = turnInstructionMax turnInstructionWidth ∧
    (PathData.default turnInstructionWidth).node
      = (PathData.default turnInstructionWidth).name_id ∧
    (PathData.default turnInstructionWidth).name_id
      = (PathData.default turnInstructionWidth).segment_duration ∧
    (PathData.default turnInstructionWidth).segment_duration
      = (PathData.default turnInstructionWidth).turn_instruction := by
  refine ⟨rfl, rfl, rfl, rfl, rfl, rfl, ?_⟩
  show unsignedMax = turnInstructionMax turnInstructionWidth
  decide

/-- C3: a default-constructed RawRouteData has both path lengths at the max of
int, the checksum at the max of unsigned, all four reversal flags false, and
all four vectors empty. -/
theorem c3_default_route_result (w : Nat) :
    (RawRouteData.default w).shortest_path_length = intMax ∧
    (RawRouteData.default w).alternative_path_length = intMax ∧
    (RawRouteData.default w).check_sum = unsignedMax ∧
    (RawRouteData.default w).source_traversed_in_reverse = false ∧
    (RawRouteData.default w).target_traversed_in_reverse = false ∧
    (RawRouteData.default w).alt_source_traversed_in_reverse = false ∧
    (RawRouteData.default w).alt_target_traversed_in_reverse = false ∧
    (RawRouteData.default w).unpacked_path_segments = [] ∧
    (RawRouteData.default w).unpacked_alternative = [] ∧
    (RawRouteData.default w).segment_end_coordinates = [] ∧
    (RawRouteData.default w).raw_via_node_coordinates = [] :=
  ⟨rfl, rfl, rfl, rfl, rfl, rfl, rfl, rfl, rfl, rfl, rfl⟩

/-- C4: on every RawRouteData reachable through construction followed by
contract-respecting producer assignments, the primary length equals the int
max sentinel exactly when the primary path holds no segments across all legs,
and the alternative length equals the sentinel exactly when the alternative
path is empty; checking the length sentinel alone therefore decides absence of
a route. -/
theorem c4_sentinel_pairing {w : Nat} (r : RawRouteData w)
    (h : ContractReachable w r) :
    (r.shortest_path_length = intMax ↔
      segmentCount r.unpacked_path_segments = 0) ∧
    (r.alternative_path_length = intMax ↔ r.unpacked_alternative = []) := by
  induction h with
  | init => exact ⟨iff_of_true rfl rfl, iff_of_true rfl rfl⟩
  | primary_found r legs len hr hlen hsegs ih =>
      exact ⟨iff_of_false hlen hsegs, ih.2⟩
  | primary_none r legs hr hsegs ih =>
      exact ⟨iff_of_true rfl hsegs, ih.2⟩
  | alternative_found r alt len hr hlen halt ih =>
      exact ⟨ih.1, iff_of_false hlen halt⟩
  | alternative_none r hr ih => exact ⟨ih.1, iff_of_true rfl rfl⟩
  | assign_check_sum r v hr ih => exact ih
  | assign_endpoints r v hr ih => exact ih
  | assign_vias r v hr ih => exact ih
  | assign_source_flag r v hr ih => exact ih
  | assign_target_flag r v hr ih => exact ih
  | assign_alt_source_flag r v hr ih => exact ih
  | assign_alt_target_flag r v hr ih => exact ih

/-- Witness for C4 on the concrete reachable state that stores a one-segment
primary route of length 10 into a default-constructed RawRouteData. -/
theorem c4_witness :
    ((((RawRouteData.default 32).set_unpacked_path_segments
        [[PathData.construct 32 1 2 3 4]]).set_shortest_path_length
        10).shortest_path_length = intMax ↔
      segmentCount (((RawRouteData.default 32).set_unpacked_path_segments
        [[PathData.construct 32 1 2 3 4]]).set_shortest_path_length
        10).unpacked_path_segments = 0) ∧
    ((((RawRouteData.default 32).set_unpacked_path_segments
        [[PathData.construct 32 1 2 3 4]]).set_shortest_path_length
        10).alternative_path_length = intMax ↔
      (((RawRouteData.default 32).set_unpacked_path_segments
        [[PathData.construct 32 1 2 3 4]]).set_shortest_path_length
        10).unpacked_alternative = []) :=
  c4_sentinel_pairing _
    (ContractReachable.primary_found _ [[PathData.construct 32 1 2 3 4]] 10
      ContractReachable.init (by decide) (by decide))

/-- C5: constructing a RawRouteData and then writing every one of its eleven
fields stores each written value unchanged; reading every field back yields
exactly what was written, and no assignment mutates any other field. -/
theorem c5_route_result_round_trip (w : Nat)
    (segs : List (List (PathData w))) (alt : List (PathData w))
    (ends : List PhantomNodes) (vias : List FixedPointCoordinate) (cs : Nat)
    (plen alen : Int) (b1 b2 b3 b4 : Bool) :
    (RawRouteData.populate w segs alt ends vias cs plen alen b1 b2 b3
      b4).unpacked_path_segments = segs ∧
    (RawRouteData.populate w segs alt ends vias cs plen alen b1 b2 b3
      b4).unpacked_alternative = alt ∧
    (RawRouteData.populate w segs alt ends vias cs plen alen b1 b2 b3
      b4).segment_end_coordinates = ends ∧
    (RawRouteData.populate w segs alt ends vias cs plen alen b1 b2 b3
      b4).raw_via_node_coordinates = vias ∧
    (RawRouteData.populate w segs alt ends vias cs plen alen b1 b2 b3
      b4).check_sum = cs ∧
    (RawRouteData.populate w segs alt ends vias cs plen alen b1 b2 b3
      b4).shortest_path_length = plen ∧
    (RawRouteData.populate w segs alt ends vias cs plen alen b1 b2 b3
      b4).alternative_path_length = alen ∧
    (RawRouteData.populate w segs alt ends vias cs plen alen b1 b2 b3
      b4).source_traversed_in_reverse = b1 ∧
    (RawRouteData.populate w segs alt ends vias cs plen alen b1 b2 b3
      b4).target_traversed_in_reverse = b2 ∧
    (RawRouteData.populate w segs alt ends vias cs plen alen b1 b2 b3
      b4).alt_source_traversed_in_reverse = b3 ∧
    (RawRouteData.populate w segs alt ends vias cs plen alen b1 b2 b3
      b4).alt_target_traversed_in_reverse = b4 :=
  ⟨rfl, rfl, rfl, rfl, rfl, rfl, rfl, rfl, rfl, rfl, rfl⟩

/-- C6: every PathData observable through the two constructors is either fully
at the sentinel defaults or fully set by the four-argument constructor; no
partially populated instance is observable. -/
theorem c6_two_construction_paths {w : Nat} (p : PathData w)
    (h : PathDataConstructed w p) :
    p.allSentinel ∨
      ∃ no na tu dur : Nat, no ≤ nodeIdMax ∧ na ≤ unsignedMax ∧
        tu ≤ unsignedMax ∧ dur ≤ unsignedMax ∧
        p = PathData.construct w no na tu dur := by
  cases h with
  | default_state => exact Or.inl ⟨rfl, rfl, rfl, rfl⟩
  | populated no na tu dur hno hna htu hdur =>
      exact Or.inr ⟨no, na, tu, dur, hno, hna, htu, hdur, rfl⟩

/-- Witness for C6 on a concrete default-constructed PathData. -/
theorem c6_witness :
    (PathData.default 32).allSentinel ∨
      ∃ no na tu dur : Nat, no ≤ nodeIdMax ∧ na ≤ unsignedMax ∧
        tu ≤ unsignedMax ∧ dur ≤ unsignedMax ∧
        PathData.default 32 = PathData.construct 32 no na tu dur :=
  c6_two_construction_paths (PathData.default 32)
    PathDataConstructed.default_state

/-- C7: the primary-route field group and the alternative-route field group of
RawRouteData are independent: assigning any alternative field leaves every
primary field unchanged and vice versa; in particular recording the absence of
an alternative (sentinel length, empty path) leaves the primary fields
exactly as they were. -/
theorem c7_primary_alternative_independent {w : Nat} (r : RawRouteData w)
    (alt : List (PathData w)) (alen : Int) (b3 b4 : Bool)
    (segs : List (List (PathData w))) (plen : Int) (ends : List PhantomNodes)
    (vias : List FixedPointCoordinate) (b1 b2 : Bool) :
    primaryView (r.set_unpacked_alternative alt) = primaryView r ∧
    primaryView (r.set_alternative_path_length alen) = primaryView r ∧
    primaryView (r.set_alt_source_traversed_in_reverse b3) = primaryView r ∧
    primaryView (r.set_alt_target_traversed_in_reverse b4) = primaryView r ∧
    altView (r.set_unpacked_path_segments segs) = altView r ∧
    altView (r.set_shortest_path_length plen) = altView r ∧
    altView (r.set_segment_end_coordinates ends) = altView r ∧
    altView (r.set_raw_via_node_coordinates vias) = altView r ∧
    altView (r.set_source_traversed_in_reverse b1) = altView r ∧
    altView (r.set_target_traversed_in_reverse b2) = altView r ∧
    primaryView
        ((r.set_alternative_path_length intMax).set_unpacked_alternative [])
      = primaryView r ∧
    altView ((r.set_alternative_path_length intMax).set_unpacked_alternative
        [])
      = ([], intMax, r.alt_source_traversed_in_reverse,
          r.alt_target_traversed_in_reverse) :=
  ⟨rfl, rfl, rfl, rfl, rfl, rfl, rfl, rfl, rfl, rfl, rfl, rfl⟩

/-- C8: no operation of this core can fail: both PathData constructors succeed
on every input in their argument domains and yield a constructed state, and
the absence of a route is a reachable data state (sentinel lengths plus empty
segment sequences), never an error. -/
theorem c8_operations_total :
    (∀ w no na tu dur : Nat, no ≤ nodeIdMax → na ≤ unsignedMax →
        tu ≤ unsignedMax → dur ≤ unsignedMax →
        ∃ p : PathData w, PathDataConstructed w p ∧
          p = PathData.construct w no na tu dur) ∧
    (∀ w : Nat, ∃ p : PathData w, PathDataConstructed w p ∧
        p = PathData.default w) ∧
    (∀ w : Nat, ∃ r : RawRouteData w, ContractReachable w r ∧
        r.shortest_path_length = intMax ∧
        segmentCount r.unpacked_path_segments = 0 ∧
        r.alternative_path_length = intMax ∧
        r.unpacked_alternative = []) := by
  refine ⟨?_, ?_, ?_⟩
  · intro w no na tu dur hno hna htu hdur
    exact ⟨_, PathDataConstructed.populated no na tu dur hno hna htu hdur,
      rfl⟩
  · intro w
    exact ⟨_, PathDataConstructed.default_state, rfl⟩
  · intro w
    exact ⟨RawRouteData.default w, ContractReachable.init, rfl, rfl, rfl, rfl⟩

/-- Witness for C8 at the concrete constructor input (1, 2, 3, 4). -/
theorem c8_witness :
    ∃ p : PathData 32, PathDataConstructed 32 p ∧
      p = PathData.construct 32 1 2 3 4 :=
  c8_operations_total.1 32 1 2 3 4 (by decide) (by decide) (by decide)
    (by decide)

/-- C9: for every TurnInstruction bit width w, the four-argument constructor
stores turn_instruction = tu % 2 ^ w, so an argument exceeding the range of
the representation is silently truncated, never rejected; at width 8 the
argument 256 is stored as 0. -/
theorem c9_turn_instruction_truncation :
    (∀ w no na tu dur : Nat,
        (PathData.construct w no na tu dur).turn_instruction = tu % 2 ^ w) ∧
    (PathData.construct 8 1 2 256 4).turn_instruction = 0 :=
  ⟨fun _ _ _ _ _ => rfl, by decide⟩

/-- C10: construction is deterministic: equal arguments to the four-argument
constructor give identical PathData values, any two default-constructed
PathData values are identical, and any two default-constructed RawRouteData
values are identical. -/
theorem c10_construction_deterministic (w : Nat) :
    (∀ no na tu dur no2 na2 tu2 dur2 : Nat, no = no2 → na = na2 → tu = tu2 →
        dur = dur2 → PathData.construct w no na tu dur
          = PathData.construct w no2 na2 tu2 dur2) ∧
    (∀ p q : PathData w, p = PathData.default w → q = PathData.default w →
        p = q) ∧
    (∀ r s : RawRouteData w, r = RawRouteData.default w →
        s = RawRouteData.default w → r = s) := by
  refine ⟨?_, ?_, ?_⟩
  · intro no na tu dur no2 na2 tu2 dur2 h1 h2 h3 h4
    rw [h1, h2, h3, h4]
  · intro p q hp hq
    rw [hp, hq]
  · intro r s hr hs
    rw [hr, hs]

/-- Witness for C10 at concrete arguments and width 32. -/
theorem c10_witness :
    PathData.construct 32 1 2 3 4 = PathData.construct 32 1 2 3 4 ∧
    PathData.default 32 = PathData.default 32 ∧
    RawRouteData.default 32 = RawRouteData.default 32 :=
  ⟨(c10_construction_deterministic 32).1 1 2 3 4 1 2 3 4 rfl rfl rfl rfl,
    (c10_construction_deterministic 32).2.1 _ _ rfl rfl,
    (c10_construction_deterministic 32).2.2 _ _ rfl rfl⟩
